import Mathlib

/-!
Verification of the zero-downtime workload lifecycle configuration declared by
the Pulumi program in `src/index.ts` (and its second variant in
`src/unnamed/part_000`), against the natural-language specification.

The repository is infrastructure-as-code: the deployment, probe, autoscaler
and load-balancer parameters are declared literally in the source, and the
control loops that consume them (health prober, rollout controller, scaler,
edge registration coordinator) live outside the repository.  We embed the
declared configuration values verbatim, and model the control loops from the
specification where a claim is about their behaviour.
-/

namespace EksSpec

/-! ## Configuration data model (embedded from the source) -/

/-- A Kubernetes HTTP probe configuration, as declared for the nginx
container in `src/index.ts` (`readinessProbe` / `livenessProbe`). -/
structure ProbeConfig where
  httpGetPath : String
  httpGetPort : Nat
  initialDelaySeconds : Nat
  periodSeconds : Nat
  timeoutSeconds : Nat
  successThreshold : Nat
  failureThreshold : Nat
deriving DecidableEq, Repr

/-- The `rollingUpdate` block of the Deployment strategy in `src/index.ts`.
`maxSurge` is kept as the literal string written in the source (`'100%'`). -/
structure RollingUpdateConfig where
  maxSurge : String
  maxUnavailable : Nat
deriving DecidableEq, Repr

/-- The workload lifecycle parameters of the nginx Deployment declared in
`src/index.ts` / `src/unnamed/part_000`. -/
structure DeploymentConfig where
  replicas : Nat
  strategyType : String
  rollingUpdate : RollingUpdateConfig
  terminationGracePeriodSeconds : Nat
  readinessProbe : ProbeConfig
  livenessProbe : ProbeConfig
  /-- Seconds slept by the preStop lifecycle hook (`sleep 20`). -/
  preStopSleepSeconds : Nat
deriving DecidableEq, Repr

/-- One metric entry of the HorizontalPodAutoscaler spec
(`type: Resource`, `target.type: Utilization`). -/
structure HpaMetric where
  resourceName : String
  averageUtilization : Nat
deriving DecidableEq, Repr

/-- The HorizontalPodAutoscaler spec declared in `src/index.ts`. -/
structure HpaConfig where
  minReplicas : Nat
  maxReplicas : Nat
  metrics : List HpaMetric
deriving DecidableEq, Repr

/-- The ALB health-check and connection-draining values declared on the
Ingress in `src/index.ts` (the `alb.ingress.kubernetes.io/healthcheck-*`,
`*-threshold-count` and `target-group-attributes` values). -/
structure AlbConfig where
  healthcheckPath : String
  healthcheckIntervalSeconds : Nat
  healthcheckTimeoutSeconds : Nat
  healthyThresholdCount : Nat
  unhealthyThresholdCount : Nat
  /-- `deregistration_delay.timeout_seconds` from `target-group-attributes`. -/
  deregistrationDelaySeconds : Nat
deriving DecidableEq, Repr

/-- The nginx Deployment of `src/index.ts` (lines 420-511). -/
def nginxDeployment : DeploymentConfig :=
  { replicas := 3
    strategyType := "RollingUpdate"
    rollingUpdate := { maxSurge := "100%", maxUnavailable := 0 }
    terminationGracePeriodSeconds := 45
    readinessProbe :=
      { httpGetPath := "/"
        httpGetPort := 80
        initialDelaySeconds := 2
        periodSeconds := 3
        timeoutSeconds := 2
        successThreshold := 1
        failureThreshold := 2 }
    livenessProbe :=
      { httpGetPath := "/"
        httpGetPort := 80
        initialDelaySeconds := 15
        periodSeconds := 10
        timeoutSeconds := 3
        successThreshold := 1
        failureThreshold := 3 }
    preStopSleepSeconds := 20 }

/-- The HorizontalPodAutoscaler of `src/index.ts` (lines 514-553). -/
def nginxHpa : HpaConfig :=
  { minReplicas := 3
    maxReplicas := 100
    metrics :=
      [ { resourceName := "cpu", averageUtilization := 60 }
      , { resourceName := "memory", averageUtilization := 60 } ] }

/-- The ALB Ingress health-check / draining values of `src/index.ts`
(lines 604-611). -/
def nginxAlb : AlbConfig :=
  { healthcheckPath := "/"
    healthcheckIntervalSeconds := 10
    healthcheckTimeoutSeconds := 5
    healthyThresholdCount := 2
    unhealthyThresholdCount := 3
    deregistrationDelaySeconds := 30 }

/-- The nginx Deployment of the second variant, `src/unnamed/part_000`
(lines 135-226). -/
def part000Deployment : DeploymentConfig :=
  { replicas := 3
    strategyType := "RollingUpdate"
    rollingUpdate := { maxSurge := "100%", maxUnavailable := 0 }
    terminationGracePeriodSeconds := 45
    readinessProbe :=
      { httpGetPath := "/"
        httpGetPort := 80
        initialDelaySeconds := 2
        periodSeconds := 3
        timeoutSeconds := 2
        successThreshold := 1
        failureThreshold := 2 }
    livenessProbe :=
      { httpGetPath := "/"
        httpGetPort := 80
        initialDelaySeconds := 15
        periodSeconds := 10
        timeoutSeconds := 3
        successThreshold := 1
        failureThreshold := 3 }
    preStopSleepSeconds := 20 }

/-- The HorizontalPodAutoscaler of `src/unnamed/part_000` (lines 229-268). -/
def part000Hpa : HpaConfig :=
  { minReplicas := 3
    maxReplicas := 100
    metrics :=
      [ { resourceName := "cpu", averageUtilization := 60 }
      , { resourceName := "memory", averageUtilization := 60 } ] }

/-- The ALB Ingress health-check / draining values of `src/unnamed/part_000`
(lines 319-326). -/
def part000Alb : AlbConfig :=
  { healthcheckPath := "/"
    healthcheckIntervalSeconds := 10
    healthcheckTimeoutSeconds := 5
    healthyThresholdCount := 2
    unhealthyThresholdCount := 3
    deregistrationDelaySeconds := 30 }

/-! ## Termination ordering (spec sections 4.5 and 8) -/

/-- Worst-case time for the external load balancer to detect an unhealthy
target: health-check interval multiplied by the unhealthy threshold count. -/
def probeDetectTime (a : AlbConfig) : Nat :=
  a.healthcheckIntervalSeconds * a.unhealthyThresholdCount

/-- The three-layer termination ordering of spec section 4.5:
probe-detect-time < deregistration propagation delay < drain grace period.
The drain grace period of the configured system is the preStop sleep. -/
def terminationOrderingHolds (d : DeploymentConfig) (a : AlbConfig) : Prop :=
  probeDetectTime a < a.deregistrationDelaySeconds ∧
    a.deregistrationDelaySeconds < d.preStopSleepSeconds

instance (d : DeploymentConfig) (a : AlbConfig) :
    Decidable (terminationOrderingHolds d a) :=
  inferInstanceAs (Decidable (_ ∧ _))

/-- Modelled from the spec: the configuration validator that the spec requires
("the test suite must detect and reject this configuration", section 8;
"the grace-period inequality (4.5) should be validated at configuration
time", section 9) is not part of the repository source; faithful to the
spec's words it accepts a configuration exactly when the strict chain
probe-detect-time < propagation-delay < drain-grace-period holds. -/
def validateTerminationConfig (probeDetect propagationDelay drainGrace : Nat) :
    Bool :=
  decide (probeDetect < propagationDelay ∧ propagationDelay < drainGrace)

/-- Modelled from the spec: `autoscaling.md` states that
`terminationGracePeriodSeconds` "must be longer than the preStop sleep time
plus the ALB's deregistration delay"; no code in the repository checks it. -/
def gracePeriodRequirement (d : DeploymentConfig) (a : AlbConfig) : Prop :=
  d.preStopSleepSeconds + a.deregistrationDelaySeconds <
    d.terminationGracePeriodSeconds

instance (d : DeploymentConfig) (a : AlbConfig) :
    Decidable (gracePeriodRequirement d a) :=
  inferInstanceAs (Decidable (_ < _))

/-! ## Scaler (spec section 4.4)

The scaler control loop that consumes the HorizontalPodAutoscaler
configuration is not part of the repository source; it is modelled from the
spec and settled against the configuration declared in `src/index.ts`. -/

/-- Ceiling division on naturals: `ceilDiv a b = ⌈a / b⌉` for `b > 0`. -/
def ceilDiv (a b : Nat) : Nat := (a + b - 1) / b

/-- Modelled from the spec: per-metric desired count,
`desired_m = ceil(current * observedUtilization_m / targetUtilization_m)`
(section 4.4). -/
def desiredForMetric (current observedUtil targetUtil : Nat) : Nat :=
  ceilDiv (current * observedUtil) targetUtil

/-- Clamp a desired count to the `[minReplicas, maxReplicas]` range. -/
def clampDesired (minR maxR v : Nat) : Nat := min maxR (max minR v)

/-- Modelled from the spec: one scaler tick over a list of
(observed utilization, target utilization) readings — the overall desired
count is the maximum of the per-metric desired counts, clamped to
`[minR, maxR]` (section 4.4, "the most conservative (largest) metric wins"). -/
def scalerDesired (minR maxR current : Nat) (readings : List (Nat × Nat)) :
    Nat :=
  clampDesired minR maxR
    (readings.foldr (fun r acc => max (desiredForMetric current r.1 r.2) acc) 0)

/-- Modelled from the spec: applying a scaler tick to the current target —
"a new target is only applied if it differs from the current one" (section
4.4).  Returns the new target together with a flag recording whether a
mutation was issued. -/
def scalerReconcile (minR maxR : Nat) (readings : List (Nat × Nat))
    (current : Nat) : Nat × Bool :=
  let d := scalerDesired minR maxR current readings
  if d = current then (current, false) else (d, true)

/-- Modelled from the spec: a scaler tick whose metric readings may be
missing — "missing/unavailable metric readings fall back to the last-known
desired count; the scaler never acts on absent data" (section 4.4); `last`
is the last-known desired count. -/
def scalerDesiredOpt (minR maxR last current : Nat)
    (readings : List (Option Nat × Nat)) : Nat :=
  if readings.any (fun r => r.1.isNone) then last
  else
    scalerDesired minR maxR current
      (readings.map (fun r => (r.1.getD 0, r.2)))

/-! ## Rollout controller (spec section 4.3)

The rollout controller is not part of the repository source; it is modelled
from the spec and settled against the RollingUpdate policy declared in
`src/index.ts` (`maxSurge: '100%'`, `maxUnavailable: 0`, `replicas: 3`). -/

/-- Parse a list of decimal digits into a number. -/
def parseDigits (cs : List Char) : Option Nat :=
  cs.foldl
    (fun acc c =>
      acc.bind fun n =>
        if c.isDigit then some (n * 10 + (c.toNat - 48)) else none)
    (some 0)

/-- Parse a Kubernetes percentage string such as `"100%"`. -/
def parsePercent (s : String) : Option Nat :=
  match s.data.getLast? with
  | some c => if c = '%' then parseDigits s.data.dropLast else none
  | none => none

/-- Number of extra replicas allowed above the desired count by the declared
`maxSurge` percentage. -/
def maxSurgeCount (d : DeploymentConfig) : Nat :=
  d.replicas * ((parsePercent d.rollingUpdate.maxSurge).getD 0) / 100

/-- Total replica budget during a rollout: `desired * (1 + maxSurge)`. -/
def rolloutTotalBudget (d : DeploymentConfig) : Nat :=
  d.replicas + maxSurgeCount d

/-- Minimum Ready replicas during a rollout:
`desired * (1 - maxUnavailable)`, i.e. `replicas - maxUnavailable`. -/
def rolloutMinReady (d : DeploymentConfig) : Nat :=
  d.replicas - d.rollingUpdate.maxUnavailable

/-- Counts observed by the rollout controller: old replicas still running
(all Ready, since the rollout starts from a converged old set and removes
old replicas only by terminating them), new replicas running, and how many
of the new replicas are Ready. -/
structure RolloutState where
  oldReady : Nat
  newRunning : Nat
  newReady : Nat
deriving DecidableEq, Repr

/-- Modelled from the spec: one observable action of the rollout controller
(section 4.3): (a) create a new replica while the surge budget allows it and
the new set is below the desired size, (b) a new replica becomes Ready,
(c) terminate an old replica only when the remaining Ready count stays at or
above the unavailability floor `minReady`. -/
inductive RolloutStep (budget minReady desired : Nat) :
    RolloutState → RolloutState → Prop where
  | createNew (s : RolloutState) (hd : s.newRunning < desired)
      (hb : s.oldReady + s.newRunning < budget) :
      RolloutStep budget minReady desired s
        { s with newRunning := s.newRunning + 1 }
  | markReady (s : RolloutState) (h : s.newReady < s.newRunning) :
      RolloutStep budget minReady desired s
        { s with newReady := s.newReady + 1 }
  | terminateOld (s : RolloutState) (h0 : 0 < s.oldReady)
      (h : minReady ≤ s.oldReady - 1 + s.newReady) :
      RolloutStep budget minReady desired s
        { s with oldReady := s.oldReady - 1 }

/-- States reachable from `init` by rollout steps. -/
inductive RolloutReach (budget minReady desired : Nat) (init : RolloutState) :
    RolloutState → Prop where
  | refl : RolloutReach budget minReady desired init init
  | step {s t : RolloutState} :
      RolloutReach budget minReady desired init s →
      RolloutStep budget minReady desired s t →
      RolloutReach budget minReady desired init t

/-- The rollout invariant: Ready count at or above the floor, total running
within the surge budget, Ready new replicas bounded by running new replicas,
and the old set never growing above its initial size. -/
def RolloutInv (budget minReady limit : Nat) (s : RolloutState) : Prop :=
  minReady ≤ s.oldReady + s.newReady ∧
    s.oldReady + s.newRunning ≤ budget ∧
    s.newReady ≤ s.newRunning ∧
    s.oldReady ≤ limit

/-- Modelled from the spec: one deterministic rollout reconciliation step —
recomputing its budgets purely from the observed state, it creates a new
replica if the surge budget and desired size allow, otherwise terminates an
old replica if the unavailability floor allows, otherwise does nothing
(section 4.3). -/
def rolloutReconcile (budget minReady desired : Nat) (s : RolloutState) :
    RolloutState :=
  if s.newRunning < desired ∧ s.oldReady + s.newRunning < budget then
    { s with newRunning := s.newRunning + 1 }
  else if 0 < s.oldReady ∧ minReady ≤ s.oldReady - 1 + s.newReady then
    { s with oldReady := s.oldReady - 1 }
  else s

/-! ## Replica lifecycle state machine (spec section 4.2)

The replica lifecycle is not part of the repository source; it is modelled
from the spec.  The drain duration is derived from the configured drain
delay (the preStop sleep of `src/index.ts`). -/

/-- The replica lifecycle phases of spec section 4.2. -/
inductive ReplicaPhase where
  | pending
  | starting
  | ready
  | notReady
  | terminating
  | draining
  | terminated
deriving DecidableEq, Repr

/-- One tracked replica: current time, lifecycle phase, and the time at
which the Draining phase was entered. -/
structure ReplicaTrack where
  time : Nat
  phase : ReplicaPhase
  drainEnteredAt : Nat
deriving DecidableEq, Repr

/-- The drain deadline of a replica (and of its EdgeTarget): the time it
entered Draining plus the configured drain duration. -/
def drainDeadline (drainDur : Nat) (s : ReplicaTrack) : Nat :=
  s.drainEnteredAt + drainDur

/-- Initial replica state: just created, Pending. -/
def lifecycleInit : ReplicaTrack :=
  { time := 0, phase := ReplicaPhase.pending, drainEnteredAt := 0 }

/-- Modelled from the spec: the transitions of the replica lifecycle state
machine (section 4.2): Pending → Starting → {Ready, NotReady} (reversible)
→ Terminating → Draining → Terminated, where Draining is a fixed-duration
sub-state and Terminated may be entered only once the full drain duration
has elapsed; `tick` advances time. -/
inductive LifecycleStep (drainDur : Nat) :
    ReplicaTrack → ReplicaTrack → Prop where
  | tick (s : ReplicaTrack) :
      LifecycleStep drainDur s { s with time := s.time + 1 }
  | start (s : ReplicaTrack) (h : s.phase = ReplicaPhase.pending) :
      LifecycleStep drainDur s { s with phase := ReplicaPhase.starting }
  | becomeReady (s : ReplicaTrack)
      (h : s.phase = ReplicaPhase.starting ∨ s.phase = ReplicaPhase.notReady) :
      LifecycleStep drainDur s { s with phase := ReplicaPhase.ready }
  | becomeNotReady (s : ReplicaTrack)
      (h : s.phase = ReplicaPhase.starting ∨ s.phase = ReplicaPhase.ready) :
      LifecycleStep drainDur s { s with phase := ReplicaPhase.notReady }
  | beginTermination (s : ReplicaTrack)
      (h : s.phase = ReplicaPhase.ready ∨ s.phase = ReplicaPhase.notReady) :
      LifecycleStep drainDur s { s with phase := ReplicaPhase.terminating }
  | beginDrain (s : ReplicaTrack) (h : s.phase = ReplicaPhase.terminating) :
      LifecycleStep drainDur s
        { s with phase := ReplicaPhase.draining, drainEnteredAt := s.time }
  | finishDrain (s : ReplicaTrack) (h : s.phase = ReplicaPhase.draining)
      (ht : s.drainEnteredAt + drainDur ≤ s.time) :
      LifecycleStep drainDur s { s with phase := ReplicaPhase.terminated }

/-- States reachable from `init` by lifecycle steps. -/
inductive LifecycleReach (drainDur : Nat) (init : ReplicaTrack) :
    ReplicaTrack → Prop where
  | refl : LifecycleReach drainDur init init
  | step {s t : ReplicaTrack} :
      LifecycleReach drainDur init s → LifecycleStep drainDur s t →
      LifecycleReach drainDur init t

/-- The drain-timing invariant: a draining replica entered Draining in the
past, and a terminated replica's drain deadline has already passed. -/
def LifecycleInv (drainDur : Nat) (s : ReplicaTrack) : Prop :=
  (s.phase = ReplicaPhase.draining → s.drainEnteredAt ≤ s.time) ∧
    (s.phase = ReplicaPhase.terminated → drainDeadline drainDur s ≤ s.time)

/-! ## Health prober (spec section 4.1)

The health prober is not part of the repository source; it is modelled from
the spec and settled against the probe thresholds declared in
`src/index.ts`. -/

/-- Per-replica probe counters and flags. -/
structure ProbeState where
  consecSuccess : Nat
  consecFail : Nat
  ready : Bool
  restartRequested : Bool
deriving DecidableEq, Repr

/-- Modelled from the spec: one readiness probe evaluation (section 4.1) —
a success increments the consecutive-success counter and resets the failure
counter, flipping the readiness flag to true once consecutive successes
reach `successThreshold`; a failure does the reverse, flipping the flag to
false once consecutive failures reach `failureThreshold`. -/
def readinessUpdate (cfg : ProbeConfig) (s : ProbeState) (ok : Bool) :
    ProbeState :=
  if ok then
    let cs := s.consecSuccess + 1
    { s with
      consecSuccess := cs
      consecFail := 0
      ready := s.ready || decide (cfg.successThreshold ≤ cs) }
  else
    let cf := s.consecFail + 1
    { s with
      consecSuccess := 0
      consecFail := cf
      ready := s.ready && !decide (cfg.failureThreshold ≤ cf) }

/-- Modelled from the spec: one liveness probe evaluation (section 4.1) —
liveness is used only to request a restart, which happens once consecutive
failures reach `failureThreshold`. -/
def livenessUpdate (cfg : ProbeConfig) (s : ProbeState) (ok : Bool) :
    ProbeState :=
  if ok then
    { s with consecSuccess := s.consecSuccess + 1, consecFail := 0 }
  else
    let cf := s.consecFail + 1
    { s with
      consecSuccess := 0
      consecFail := cf
      restartRequested :=
        s.restartRequested || decide (cfg.failureThreshold ≤ cf) }

/-! ## Ingress status outputs (`src/index.ts` lines 644-651 and 673-675) -/

/-- One entry of the load balancer ingress list; its hostname may be
absent. -/
structure LoadBalancerIngressEntry where
  hostname : Option String
deriving DecidableEq, Repr

/-- The `loadBalancer` field of an Ingress status; the entry list may be
absent. -/
structure LoadBalancerStatus where
  ingress : Option (List LoadBalancerIngressEntry)
deriving DecidableEq, Repr

/-- A Kubernetes Ingress status; the `loadBalancer` field may be absent. -/
structure IngressStatus where
  loadBalancer : Option LoadBalancerStatus
deriving DecidableEq, Repr

/-- The `url` stack output of `src/index.ts` (lines 673-675): the
optional-chained read `status?.loadBalancer?.ingress?.[0]?.hostname`, where
JavaScript `undefined` is `none`. -/
def url (status : Option IngressStatus) : Option String :=
  status.bind fun st =>
    st.loadBalancer.bind fun lb =>
      lb.ingress.bind fun entries =>
        entries.head?.bind fun e => e.hostname

/-- The Cloudflare DnsRecord `content` of `src/index.ts` (line 649): the
read `ingress.status.loadBalancer.ingress[0].hostname`.  The receiver is a
Pulumi `Output`, and lifted property access through the `Output` proxy
propagates `undefined` instead of throwing when a link of the chain is
absent or the list is empty, so each access step maps an absent value to
`none`. -/
def dnsRecordContent (status : Option IngressStatus) : Option String :=
  match status with
  | none => none
  | some st =>
    match st.loadBalancer with
    | none => none
    | some lb =>
      match lb.ingress with
      | none => none
      | some entries =>
        match entries.head? with
        | none => none
        | some e => e.hostname

/-! ## Helper lemmas -/

/-- One rollout step preserves the rollout invariant. -/
lemma rollout_inv_step (budget minReady desired limit : Nat)
    (s t : RolloutState) (hinv : RolloutInv budget minReady limit s)
    (h : RolloutStep budget minReady desired s t) :
    RolloutInv budget minReady limit t := by
  obtain ⟨h1, h2, h3, h4⟩ := hinv
  cases h with
  | createNew hd hb => refine ⟨?_, ?_, ?_, ?_⟩ <;> dsimp <;> omega
  | markReady h => refine ⟨?_, ?_, ?_, ?_⟩ <;> dsimp <;> omega
  | terminateOld h0 h => refine ⟨?_, ?_, ?_, ?_⟩ <;> dsimp <;> omega

/-- Every state reachable by rollout steps from a state satisfying the
rollout invariant satisfies it as well. -/
lemma rollout_inv_reach (budget minReady desired limit : Nat)
    (init s : RolloutState) (hinit : RolloutInv budget minReady limit init)
    (h : RolloutReach budget minReady desired init s) :
    RolloutInv budget minReady limit s := by
  induction h with
  | refl => exact hinit
  | step hr hs ih => exact rollout_inv_step _ _ _ _ _ _ ih hs

/-- One lifecycle step preserves the drain-timing invariant. -/
lemma lifecycle_inv_step (drainDur : Nat) (s t : ReplicaTrack)
    (hinv : LifecycleInv drainDur s) (h : LifecycleStep drainDur s t) :
    LifecycleInv drainDur t := by
  obtain ⟨h1, h2⟩ := hinv
  cases h with
  | tick =>
    refine ⟨fun hp => ?_, fun hp => ?_⟩ <;> dsimp at hp ⊢
    · have := h1 hp; omega
    · have := h2 hp; dsimp [drainDeadline] at this ⊢; omega
  | start h => exact ⟨fun hp => (nomatch hp), fun hp => nomatch hp⟩
  | becomeReady h => exact ⟨fun hp => (nomatch hp), fun hp => nomatch hp⟩
  | becomeNotReady h => exact ⟨fun hp => (nomatch hp), fun hp => nomatch hp⟩
  | beginTermination h => exact ⟨fun hp => (nomatch hp), fun hp => nomatch hp⟩
  | beginDrain h => exact ⟨fun hp => Nat.le_refl _, fun hp => nomatch hp⟩
  | finishDrain h ht => exact ⟨fun hp => (nomatch hp), fun hp => ht⟩

/-- Every state reachable from the initial replica state satisfies the
drain-timing invariant. -/
lemma lifecycle_inv_reach (drainDur : Nat) (s : ReplicaTrack)
    (h : LifecycleReach drainDur lifecycleInit s) :
    LifecycleInv drainDur s := by
  induction h with
  | refl => exact ⟨fun hp => (nomatch hp), fun hp => nomatch hp⟩
  | step hr hs ih => exact lifecycle_inv_step _ _ _ ih hs

/-! ## Theorems -/

/-- C1 (counterexample): the claim asserts that the configured termination
parameters satisfy probe-detect-time < propagation-delay < drain-grace-period;
at the values actually declared in `src/index.ts` (interval 10 times unhealthy
threshold 3 = 30, deregistration delay 30, preStop sleep 20) the chain fails:
30 < 30 is false and 30 < 20 is false. -/
theorem configured_termination_ordering_fails :
    ¬ terminationOrderingHolds nginxDeployment nginxAlb := by
  decide

/-- C1 (amended): the configured termination parameters violate the
three-layer ordering of spec section 4.5 — the probe detect time equals 30,
which is not strictly below the deregistration delay 30, which is itself
above, not below, the 20-second drain grace period — and the spec-modelled
configuration validator therefore rejects exactly this configuration. -/
theorem configured_termination_ordering_violated :
    probeDetectTime nginxAlb = 30 ∧
      nginxAlb.deregistrationDelaySeconds = 30 ∧
      nginxDeployment.preStopSleepSeconds = 20 ∧
      ¬ terminationOrderingHolds nginxDeployment nginxAlb ∧
      validateTerminationConfig (probeDetectTime nginxAlb)
        nginxAlb.deregistrationDelaySeconds
        nginxDeployment.preStopSleepSeconds = false := by
  refine ⟨rfl, rfl, rfl, ?_, ?_⟩ <;> decide

/-- C8: the claim (and the repository's own `autoscaling.md`) require the
total termination grace period to exceed the preStop sleep plus the ALB
deregistration delay, but the code declares 45, while 20 + 30 = 50, so the
requirement 45 > 50 fails on the configured values. -/
theorem grace_period_requirement_fails :
    nginxDeployment.terminationGracePeriodSeconds = 45 ∧
      nginxDeployment.preStopSleepSeconds +
        nginxAlb.deregistrationDelaySeconds = 50 ∧
      ¬ gracePeriodRequirement nginxDeployment nginxAlb := by
  refine ⟨rfl, rfl, ?_⟩
  decide

/-- C9: the two program variants declare identical workload lifecycle
parameters for the nginx application: the Deployment (replicas, rolling
update strategy, probes, preStop sleep, termination grace period), the
HorizontalPodAutoscaler (min/max replicas and both utilization targets) and
the ALB health-check / deregistration annotation values coincide between
`src/index.ts` and `src/unnamed/part_000`. -/
theorem variants_declare_identical_lifecycle_parameters :
    nginxDeployment = part000Deployment ∧
      nginxHpa = part000Hpa ∧
      nginxAlb = part000Alb := by
  refine ⟨?_, ?_, ?_⟩ <;> rfl

/-- C3: on a scaler tick with the configured metrics (cpu and memory, both
with utilization target 60) and bounds (min 3, max 100), the applied desired
count is `max (ceil (current * cpuUtil / 60)) (ceil (current * memUtil / 60))`
clamped to `[3, 100]`; in the spec scenario with current desired 3, cpu
target 70 and observed utilization 140 the new desired count is 6, and when
`max < 6` the result is clamped to `max`. -/
theorem scaler_tick_formula_and_scenario :
    nginxHpa.minReplicas = 3 ∧ nginxHpa.maxReplicas = 100 ∧
      nginxHpa.metrics =
        [ { resourceName := "cpu", averageUtilization := 60 }
        , { resourceName := "memory", averageUtilization := 60 } ] ∧
      (∀ current cpuUtil memUtil : Nat,
        scalerDesired nginxHpa.minReplicas nginxHpa.maxReplicas current
            [(cpuUtil, 60), (memUtil, 60)] =
          min 100 (max 3 (max (ceilDiv (current * cpuUtil) 60)
            (ceilDiv (current * memUtil) 60)))) ∧
      scalerDesired nginxHpa.minReplicas nginxHpa.maxReplicas 3 [(140, 70)]
        = 6 ∧
      (∀ mn mx : Nat, mn ≤ mx → mx < 6 →
        scalerDesired mn mx 3 [(140, 70)] = mx) := by
  refine ⟨rfl, rfl, rfl, ?_, by decide, ?_⟩
  · intro current cpuUtil memUtil
    simp only [nginxHpa, scalerDesired, clampDesired, desiredForMetric,
      List.foldr]
    omega
  · intro mn mx hmn hmx
    have h6 : ceilDiv (3 * 140) 70 = 6 := by decide
    simp only [scalerDesired, clampDesired, desiredForMetric, List.foldr, h6]
    omega

/-- C3 witness. -/
theorem scaler_tick_formula_and_scenario_witness :
    scalerDesired nginxHpa.minReplicas nginxHpa.maxReplicas 5
        [(120, 60), (30, 60)] =
      min 100 (max 3 (max (ceilDiv (5 * 120) 60) (ceilDiv (5 * 30) 60))) ∧
      scalerDesired 3 5 3 [(140, 70)] = 5 :=
  ⟨scaler_tick_formula_and_scenario.2.2.2.1 5 120 30,
   scaler_tick_formula_and_scenario.2.2.2.2.2 3 5 (by decide) (by decide)⟩

/-- C6: reconciliation is idempotent and stateless: a newly computed scaling
target is applied only if it differs from the current one (the mutation flag
is set exactly when they differ), so a scaler tick on an already-converged
state (computed target = current target) produces no mutation; and the
rollout reconciliation step, which recomputes its budgets purely from the
observed state, maps a converged state (old set empty, new set at the
desired size and fully Ready) to itself, so repeating it after a crash gives
the same result as running it once. -/
theorem reconciliation_idempotent :
    (∀ (mn mx current : Nat) (readings : List (Nat × Nat)),
        scalerDesired mn mx current readings = current →
          scalerReconcile mn mx readings current = (current, false)) ∧
      (∀ (mn mx current : Nat) (readings : List (Nat × Nat)),
        (scalerReconcile mn mx readings current).2 = true ↔
          scalerDesired mn mx current readings ≠ current) ∧
      (∀ budget minReady desired : Nat,
        rolloutReconcile budget minReady desired
            { oldReady := 0, newRunning := desired, newReady := desired } =
          { oldReady := 0, newRunning := desired, newReady := desired }) ∧
      (∀ budget minReady desired : Nat,
        rolloutReconcile budget minReady desired
            (rolloutReconcile budget minReady desired
              { oldReady := 0, newRunning := desired, newReady := desired }) =
          rolloutReconcile budget minReady desired
            { oldReady := 0, newRunning := desired, newReady := desired }) := by
  refine ⟨?_, ?_, ?_, ?_⟩
  · intro mn mx current readings h
    simp [scalerReconcile, h]
  · intro mn mx current readings
    by_cases h : scalerDesired mn mx current readings = current <;>
      simp [scalerReconcile, h]
  · intro budget minReady desired
    simp [rolloutReconcile]
  · intro budget minReady desired
    simp [rolloutReconcile]

/-- C6 witness. -/
theorem reconciliation_idempotent_witness :
    scalerReconcile 3 100 [(60, 60), (60, 60)] 3 = (3, false) :=
  reconciliation_idempotent.1 3 100 3 [(60, 60), (60, 60)] (by decide)

/-- C7: when one or more configured metric readings are missing, the scaler
leaves the desired count at its last-known value `last` regardless of the
other readings; when all readings are present it computes the usual clamped
maximum, so the fallback happens exactly on absent data. -/
theorem scaler_missing_metric_holds_last :
    (∀ (mn mx last current : Nat) (readings : List (Option Nat × Nat)),
        readings.any (fun r => r.1.isNone) = true →
          scalerDesiredOpt mn mx last current readings = last) ∧
      (∀ (mn mx last current : Nat) (readings : List (Option Nat × Nat)),
        readings.any (fun r => r.1.isNone) = false →
          scalerDesiredOpt mn mx last current readings =
            scalerDesired mn mx current
              (readings.map (fun r => (r.1.getD 0, r.2)))) := by
  constructor
  · intro mn mx last current readings h
    simp [scalerDesiredOpt, h]
  · intro mn mx last current readings h
    simp [scalerDesiredOpt, h]

/-- C7 witness: with the cpu reading absent, the tick holds the last-known
desired count 7 even though the present memory reading would suggest 3. -/
theorem scaler_missing_metric_holds_last_witness :
    scalerDesiredOpt 3 100 7 3 [(none, 60), (some 30, 60)] = 7 :=
  scaler_missing_metric_holds_last.1 3 100 7 3 [(none, 60), (some 30, 60)]
    (by decide)

/-- C2: under the declared policy (`maxSurge: '100%'`, `maxUnavailable: 0`,
`replicas: 3`) the total budget is 6 and the Ready floor is 3; every rollout
state reachable from the converged old set of 3 Ready replicas keeps the
Ready count at or above 3 (so unavailable replicas stay at the
`maxUnavailable` bound of 0) and the total of old plus new running replicas
at or below 6; a trace creating 3 new replicas before any old one is
terminated exists; and any step that terminates the k-th old replica can
fire only when at least k new replicas are already Ready. -/
theorem rollout_respects_budgets :
    rolloutTotalBudget nginxDeployment = 6 ∧
      rolloutMinReady nginxDeployment = 3 ∧
      nginxDeployment.replicas = 3 ∧
      (∀ s : RolloutState,
        RolloutReach 6 3 3 { oldReady := 3, newRunning := 0, newReady := 0 }
            s →
          3 ≤ s.oldReady + s.newReady ∧ s.oldReady + s.newRunning ≤ 6) ∧
      RolloutReach 6 3 3 { oldReady := 3, newRunning := 0, newReady := 0 }
        { oldReady := 3, newRunning := 3, newReady := 0 } ∧
      (∀ s t : RolloutState,
        RolloutReach 6 3 3 { oldReady := 3, newRunning := 0, newReady := 0 }
            s →
          RolloutStep 6 3 3 s t → t.oldReady < s.oldReady →
            3 - s.oldReady + 1 ≤ s.newReady) := by
  have hinit : RolloutInv 6 3 3
      { oldReady := 3, newRunning := 0, newReady := 0 } :=
    ⟨by decide, by decide, by decide, by decide⟩
  refine ⟨by decide, by decide, rfl, ?_, ?_, ?_⟩
  · intro s hs
    have h := rollout_inv_reach 6 3 3 3 _ s hinit hs
    exact ⟨h.1, h.2.1⟩
  · have r1 : RolloutReach 6 3 3
        { oldReady := 3, newRunning := 0, newReady := 0 }
        { oldReady := 3, newRunning := 1, newReady := 0 } :=
      RolloutReach.step RolloutReach.refl
        (RolloutStep.createNew { oldReady := 3, newRunning := 0, newReady := 0 }
          (by decide) (by decide))
    have r2 : RolloutReach 6 3 3
        { oldReady := 3, newRunning := 0, newReady := 0 }
        { oldReady := 3, newRunning := 2, newReady := 0 } :=
      RolloutReach.step r1
        (RolloutStep.createNew { oldReady := 3, newRunning := 1, newReady := 0 }
          (by decide) (by decide))
    exact
      RolloutReach.step r2
        (RolloutStep.createNew { oldReady := 3, newRunning := 2, newReady := 0 }
          (by decide) (by decide))
  · intro s t hs hst hdec
    have hinv := rollout_inv_reach 6 3 3 3 _ s hinit hs
    obtain ⟨h1, h2, h3, h4⟩ := hinv
    cases hst with
    | createNew hd hb => dsimp at hdec; omega
    | markReady h => dsimp at hdec; omega
    | terminateOld h0 h => dsimp at hdec; omega

/-- C2 witness. -/
theorem rollout_respects_budgets_witness : 3 ≤ 3 + 0 ∧ 3 + 0 ≤ 6 :=
  rollout_respects_budgets.2.2.2.1
    { oldReady := 3, newRunning := 0, newReady := 0 } RolloutReach.refl

/-- C4: with the drain duration derived from the configured drain delay
(the 20-second preStop sleep), every replica state reachable from the
initial Pending state satisfies: while Draining, the drain entry time is in
the past, and the Terminated phase — which marks the replica (and its
EdgeTarget) drain-complete — is reached only once the drain deadline
(drain entry time plus the full drain duration) has elapsed. -/
theorem replica_terminated_only_after_drain :
    nginxDeployment.preStopSleepSeconds = 20 ∧
      ∀ (drainDur : Nat) (s : ReplicaTrack),
        LifecycleReach drainDur lifecycleInit s →
          (s.phase = ReplicaPhase.draining → s.drainEnteredAt ≤ s.time) ∧
            (s.phase = ReplicaPhase.terminated →
              drainDeadline drainDur s ≤ s.time) := by
  refine ⟨rfl, ?_⟩
  intro drainDur s hs
  exact lifecycle_inv_reach drainDur s hs

/-- C4 witness: a replica driven Pending → Starting → Ready → Terminating →
Draining at time 0 with the configured 20-second drain duration. -/
theorem replica_terminated_only_after_drain_witness :
    (ReplicaPhase.draining = ReplicaPhase.draining → (0 : Nat) ≤ 0) ∧
      (ReplicaPhase.draining = ReplicaPhase.terminated →
        drainDeadline 20
          { time := 0, phase := ReplicaPhase.draining, drainEnteredAt := 0 }
            ≤ 0) := by
  have r1 : LifecycleReach 20 lifecycleInit
      { time := 0, phase := ReplicaPhase.starting, drainEnteredAt := 0 } :=
    LifecycleReach.step LifecycleReach.refl
      (LifecycleStep.start lifecycleInit rfl)
  have r2 : LifecycleReach 20 lifecycleInit
      { time := 0, phase := ReplicaPhase.ready, drainEnteredAt := 0 } :=
    LifecycleReach.step r1
      (LifecycleStep.becomeReady
        { time := 0, phase := ReplicaPhase.starting, drainEnteredAt := 0 }
        (Or.inl rfl))
  have r3 : LifecycleReach 20 lifecycleInit
      { time := 0, phase := ReplicaPhase.terminating, drainEnteredAt := 0 } :=
    LifecycleReach.step r2
      (LifecycleStep.beginTermination
        { time := 0, phase := ReplicaPhase.ready, drainEnteredAt := 0 }
        (Or.inl rfl))
  have r4 : LifecycleReach 20 lifecycleInit
      { time := 0, phase := ReplicaPhase.draining, drainEnteredAt := 0 } :=
    LifecycleReach.step r3
      (LifecycleStep.beginDrain
        { time := 0, phase := ReplicaPhase.terminating, drainEnteredAt := 0 }
        rfl)
  exact replica_terminated_only_after_drain.2 20
    { time := 0, phase := ReplicaPhase.draining, drainEnteredAt := 0 } r4

/-- C5: with the declared thresholds (readiness `successThreshold: 1`,
liveness `failureThreshold: 3`), a not-Ready replica's readiness flag flips
to true exactly when a successful readiness probe brings the consecutive
success count to the success threshold, and a restart becomes requested
exactly when a failed liveness probe brings the consecutive failure count to
the liveness failure threshold. -/
theorem probe_threshold_transitions :
    nginxDeployment.readinessProbe.successThreshold = 1 ∧
      nginxDeployment.livenessProbe.failureThreshold = 3 ∧
      (∀ (s : ProbeState) (ok : Bool), s.ready = false →
        ((readinessUpdate nginxDeployment.readinessProbe s ok).ready = true ↔
          ok = true ∧
            nginxDeployment.readinessProbe.successThreshold ≤
              s.consecSuccess + 1)) ∧
      (∀ (s : ProbeState) (ok : Bool), s.restartRequested = false →
        ((livenessUpdate nginxDeployment.livenessProbe s ok).restartRequested
            = true ↔
          ok = false ∧
            nginxDeployment.livenessProbe.failureThreshold ≤
              s.consecFail + 1)) := by
  refine ⟨rfl, rfl, ?_, ?_⟩
  · intro s ok h
    cases ok <;> simp [readinessUpdate, nginxDeployment, h]
  · intro s ok h
    cases ok <;> simp [livenessUpdate, nginxDeployment, h]

/-- C5 witness: a single successful readiness probe flips a fresh not-Ready
replica to Ready (threshold 1), and a third consecutive liveness failure
requests a restart (threshold 3). -/
theorem probe_threshold_transitions_witness :
    ((readinessUpdate nginxDeployment.readinessProbe
        { consecSuccess := 0, consecFail := 0, ready := false,
          restartRequested := false } true).ready = true ↔
      true = true ∧
        nginxDeployment.readinessProbe.successThreshold ≤ 0 + 1) ∧
      ((livenessUpdate nginxDeployment.livenessProbe
          { consecSuccess := 0, consecFail := 2, ready := false,
            restartRequested := false } false).restartRequested = true ↔
        false = false ∧
          nginxDeployment.livenessProbe.failureThreshold ≤ 2 + 1) :=
  ⟨probe_threshold_transitions.2.2.1
      { consecSuccess := 0, consecFail := 0, ready := false,
        restartRequested := false } true rfl,
   probe_threshold_transitions.2.2.2
      { consecSuccess := 0, consecFail := 2, ready := false,
        restartRequested := false } false rfl⟩

/-- C10 (counterexample): the claim asserts that the Cloudflare DnsRecord
content read is well-defined only under the precondition that the
load-balancer ingress list is non-empty; at the concrete status whose
ingress list is present but empty, the read — Pulumi lifted property access,
which propagates `undefined` rather than throwing — still evaluates, to
`undefined`, exactly as the guarded `url` chain does. -/
theorem dns_content_total_on_empty_list :
    dnsRecordContent
        (some { loadBalancer := some { ingress := some [] } }) = none ∧
      dnsRecordContent
          (some { loadBalancer := some { ingress := some [] } }) =
        url (some { loadBalancer := some { ingress := some [] } }) := by
  exact ⟨rfl, rfl⟩

/-- C10 (amended): the `url` stack output is a total function of the ingress
status — it yields the hostname of the first load-balancer ingress entry
when the status, its `loadBalancer` field, its entry list and a first entry
are all present, and yields `none` instead of failing when any of them is
absent — and the Cloudflare DnsRecord content, read through Pulumi lifted
`Output` property access that likewise propagates `undefined` instead of
throwing, is equally total and agrees with `url` on every ingress status. -/
theorem url_and_dns_content_agree :
    (∀ (e : LoadBalancerIngressEntry) (rest : List LoadBalancerIngressEntry),
        url (some { loadBalancer := some { ingress := some (e :: rest) } }) =
          e.hostname) ∧
      url none = none ∧
      url (some { loadBalancer := none }) = none ∧
      url (some { loadBalancer := some { ingress := none } }) = none ∧
      url (some { loadBalancer := some { ingress := some [] } }) = none ∧
      (∀ status : Option IngressStatus, dnsRecordContent status = url status) := by
  refine ⟨?_, rfl, rfl, rfl, rfl, ?_⟩
  · intro e rest
    simp [url]
  · intro status
    rcases status with _ | ⟨_ | ⟨_ | entries⟩⟩
    · rfl
    · rfl
    · rfl
    · rcases entries with _ | ⟨e, rest⟩ <;> rfl

end EksSpec
